import Mathlib

/-
Verification of the wagob escrow/job-marketplace repository.

The development has two layers:
1. Shallow embeddings of the TypeScript wrapper code that is present in the
   repository (cell building in DeployEscrow.ts and the reputation wrapper,
   message construction in sendSubmitRating, the getEscrow read projection,
   and the EscrowState enumeration object).
2. A model of the escrow contract state machine.  The FunC contract source
   (escrow.fc) is not part of the repository snapshot; only its wrappers,
   tests and the SMART_CONTRACTS.md documentation are.  Those parts are
   modelled from the specification and are marked as such in their doc
   comments.
-/

namespace WajoB

/-! ## Cell-builder model

A TON cell is modelled as the list of fields written into it.  The function
storeUintI mirrors the checked behaviour of the ton-core builder method
storeUint: a value is stored only when it is a non-negative integer that
fits in the requested number of bits, otherwise the builder throws.
Addresses and dictionary roots are opaque here.
-/

inductive CellItem where
  | uintV (value : Int) (bits : Nat)
  | dictV (present : Bool)
  | addrV (a : Nat)
deriving DecidableEq, Repr

def storeUintI (value : Int) (bits : Nat) : Except String CellItem :=
  if 0 ≤ value ∧ value < (2 : Int) ^ bits then .ok (.uintV value bits)
  else .error "number does not fit in bits"

/-! ## Embedding of src/wrappers/DeployEscrow.ts -/

/-- Embeds the TypeScript type EscrowConfig from src/wrappers/DeployEscrow.ts:
an owner address and a fee in basis points (a plain JS number). -/
structure EscrowConfig where
  owner : Nat
  feeBps : Int
deriving DecidableEq, Repr

/-- Embeds escrowConfigToCell from src/wrappers/DeployEscrow.ts: stores a
64-bit zero counter, an empty dictionary, the owner address, and the fee as a
16-bit unsigned field.  The only way the construction can fail is the checked
16-bit store of feeBps. -/
def escrowConfigToCell (config : EscrowConfig) : Except String (List CellItem) := do
  let c0 ← storeUintI 0 64
  let c1 := CellItem.dictV false
  let c2 := CellItem.addrV config.owner
  let c3 ← storeUintI config.feeBps 16
  .ok [c0, c1, c2, c3]

/-- Embeds the EscrowState constant object of src/wrappers/DeployEscrow.ts,
exactly as written there: five named states with 0-based numeric values. -/
def EscrowState : List (String × Nat) :=
  [("created", 0), ("funded", 1), ("locked", 2), ("completed", 3), ("disputed", 4)]

/-- Embeds the field-read sequence of the getEscrow query wrapper in
src/wrappers/DeployEscrow.ts (lines 162-173): the names of the fields the
wrapper reads off the stack and returns, in order. -/
def getEscrowFieldNames : List String :=
  ["jobId", "employer", "worker", "amount", "state",
   "employerConfirmed", "workerConfirmed"]

/-! ## Embedding of the reputation wrapper (src/unnamed/part_006) -/

/-- Embeds the TypeScript type ReputationConfig: all three fields are
optional. -/
structure ReputationConfig where
  owner : Option Nat
  id : Option Int
  counter : Option Int
deriving DecidableEq, Repr

/-- JavaScript falsy-or on an optional number: undefined and 0 both fall
through to the right operand, any other value short-circuits. -/
def jsOrI : Option Int → Int → Int
  | some v, b => if v = 0 then b else v
  | none, b => b

/-- Embeds reputationConfigToCell from src/unnamed/part_006.  When id or
counter is defined the test branch stores the single 64-bit value
(config.counter or config.id or 0) with JS falsy semantics; otherwise the
production branch stores a zero counter, three empty dictionaries and the
owner address (the non-null assertion on owner fails when owner is absent). -/
def reputationConfigToCell (config : ReputationConfig) : Except String (List CellItem) :=
  if config.id.isSome ∨ config.counter.isSome then do
    let c ← storeUintI (jsOrI config.counter (jsOrI config.id 0)) 64
    .ok [c]
  else
    match config.owner with
    | some o => .ok [.uintV 0 64, .dictV false, .dictV false, .dictV false, .addrV o]
    | none => .error "owner is undefined"

/-- An outbound internal message: the attached value and the body cell. -/
structure OutMessage where
  value : Int
  body : List CellItem
deriving DecidableEq, Repr

/-- Embeds the argument record of sendSubmitRating in src/unnamed/part_006. -/
structure SubmitRatingOpts where
  value : Int
  jobId : Int
  targetUser : Nat
  rating : Int
deriving DecidableEq, Repr

/-- Embeds sendSubmitRating from src/unnamed/part_006: ratings outside 1..5
throw before any message is built; otherwise exactly one message is sent
whose body is the 32-bit opcode 0x9e6f2a84, a 64-bit zero query id, the
64-bit job id, the target user address, and the 8-bit rating. -/
def sendSubmitRating (opts : SubmitRatingOpts) : Except String (List OutMessage) :=
  if opts.rating < 1 ∨ opts.rating > 5 then
    .error "Rating must be between 1 and 5"
  else do
    let b0 ← storeUintI 0x9e6f2a84 32
    let b1 ← storeUintI 0 64
    let b2 ← storeUintI opts.jobId 64
    let b3 := CellItem.addrV opts.targetUser
    let b4 ← storeUintI opts.rating 8
    .ok [{ value := opts.value, body := [b0, b1, b2, b3, b4] }]

/-! ## Escrow contract model

The FunC contract source escrow.fc is not in the repository snapshot; the
definitions below are modelled from the specification (sections 3, 4, 6, 7)
and from the operation descriptions in src/SMART_CONTRACTS.md.
-/

/-- Modelled from the spec: the state field of an escrow record, one of
Created, Funded, Locked, Completed, Disputed, Refunded (spec section 3;
src/SMART_CONTRACTS.md escrow states table). -/
inductive EState where
  | created
  | funded
  | locked
  | completed
  | disputed
  | refunded
deriving DecidableEq, Repr

/-- Modelled from the spec: one escrow record, with the fields listed in
spec section 3 and in the escrow data structure of src/SMART_CONTRACTS.md.
Addresses are opaque naturals; timestamps not yet set are none. -/
structure EscrowRecord where
  id : Nat
  jobId : Nat
  employer : Nat
  worker : Option Nat
  amount : Nat
  state : EState
  employerConfirmed : Bool
  workerConfirmed : Bool
  createdAt : Nat
  lockedAt : Option Nat
  completedAt : Option Nat
  disputeRaisedAt : Option Nat
deriving DecidableEq, Repr

/-- Modelled from the spec: the error taxonomy of spec section 7 and the
escrow error codes 200-205 of src/SMART_CONTRACTS.md. -/
inductive EscrowErr where
  | unauthorized
  | notFound
  | invalidState
  | insufficientFunds
  | alreadyReleased
  | disputeTimeout
deriving DecidableEq, Repr

/-- Modelled from the spec: the persisted platform configuration, namely the
administrator (owner) address and the fee in basis points (spec section 6;
storage layout of src/SMART_CONTRACTS.md). -/
structure Platform where
  owner : Nat
  feeBps : Nat
deriving DecidableEq, Repr

/-- Modelled from the spec: the fee computed on release, namely
floor of amount times feeBps over 10000 (spec section 4.3;
OP_CONFIRM_COMPLETION in src/SMART_CONTRACTS.md). -/
def computeFee (amount feeBps : Nat) : Nat :=
  amount * feeBps / 10000

/-- Modelled from the spec: createEscrow builds a fresh record in state
Created with cleared confirmation flags and only the creation timestamp set
(spec sections 3 and 6; OP_CREATE_ESCROW in src/SMART_CONTRACTS.md). -/
def createEscrow (id jobId employer : Nat) (worker : Option Nat)
    (amount now : Nat) : EscrowRecord :=
  { id := id, jobId := jobId, employer := employer, worker := worker,
    amount := amount, state := .created,
    employerConfirmed := false, workerConfirmed := false,
    createdAt := now, lockedAt := none, completedAt := none,
    disputeRaisedAt := none }

/-- Modelled from the spec: OP_FUND_ESCROW.  Requires sender equal to the
employer, state Created, a positive amount and a paid value at least the
amount; on success the state becomes Funded (spec sections 4.2 and 4.4;
src/SMART_CONTRACTS.md). -/
def fund (sender paid : Nat) (r : EscrowRecord) : Except EscrowErr EscrowRecord :=
  if sender ≠ r.employer then .error .unauthorized
  else if r.state ≠ .created then .error .invalidState
  else if r.amount = 0 then .error .invalidState
  else if paid < r.amount then .error .insufficientFunds
  else .ok { r with state := .funded }

/-- Modelled from the spec: OP_LOCK_ESCROW.  The state guard is checked
first, so that a second lock on an already Locked record fails with
InvalidState whoever sends it (spec sections 5, 7 and 8); then the sender
must not be the employer and must match the recorded worker when one is
set.  On success the state becomes Locked, the worker is recorded and the
lock timestamp is set. -/
def lock (sender now : Nat) (r : EscrowRecord) : Except EscrowErr EscrowRecord :=
  if r.state ≠ .funded then .error .invalidState
  else if sender = r.employer then .error .unauthorized
  else
    match r.worker with
    | some w =>
        if sender ≠ w then .error .unauthorized
        else .ok { r with state := .locked, lockedAt := some now }
    | none =>
        .ok { r with state := .locked, worker := some sender, lockedAt := some now }

/-- Modelled from the spec: the release step inside OP_CONFIRM_COMPLETION.
When both confirmation flags hold, the fee goes to the platform owner, the
remainder to the worker, and the state becomes Completed within the same
operation; otherwise the updated record is kept with no transfer
(spec sections 4.2 and 4.3; src/SMART_CONTRACTS.md). -/
def finishConfirm (p : Platform) (now : Nat) (r : EscrowRecord) :
    Except EscrowErr (EscrowRecord × List (Nat × Nat)) :=
  if r.employerConfirmed && r.workerConfirmed then
    match r.worker with
    | some w =>
        let fee := computeFee r.amount p.feeBps
        .ok ({ r with state := .completed, completedAt := some now },
             [(w, r.amount - fee), (p.owner, fee)])
    | none => .error .invalidState
  else .ok (r, [])

/-- Modelled from the spec: OP_CONFIRM_COMPLETION.  Only legal in state
Locked; the sender must be the employer or the recorded worker; the sender
flag is set (idempotently) and release fires in the same operation as soon
as both flags hold (spec sections 4.2 and 8). -/
def confirm (p : Platform) (sender now : Nat) (r : EscrowRecord) :
    Except EscrowErr (EscrowRecord × List (Nat × Nat)) :=
  if r.state ≠ .locked then .error .invalidState
  else if sender = r.employer then
    finishConfirm p now { r with employerConfirmed := true }
  else if r.worker = some sender then
    finishConfirm p now { r with workerConfirmed := true }
  else .error .unauthorized

/-- Modelled from the spec: OP_RAISE_DISPUTE.  Only legal in state Locked
(the policy fixed in spec section 9); the sender must be a party; the state
becomes Disputed and the dispute timestamp is set. -/
def raiseDispute (sender now : Nat) (r : EscrowRecord) : Except EscrowErr EscrowRecord :=
  if r.state ≠ .locked then .error .invalidState
  else if sender = r.employer ∨ r.worker = some sender then
    .ok { r with state := .disputed, disputeRaisedAt := some now }
  else .error .unauthorized

/-- Modelled from the spec: OP_RESOLVE_DISPUTE.  The administrator check
comes first (spec section 2 control flow and section 8), so a non-admin
sender fails with Unauthorized in every state; then the state must be
Disputed.  Releasing to the worker pays amount minus fee to the worker and
the fee to the owner; otherwise the full amount is refunded to the employer
with no fee and the state becomes Refunded. -/
def resolve (p : Platform) (sender : Nat) (releaseToWorker : Bool) (now : Nat)
    (r : EscrowRecord) : Except EscrowErr (EscrowRecord × List (Nat × Nat)) :=
  if sender ≠ p.owner then .error .unauthorized
  else if r.state ≠ .disputed then .error .invalidState
  else if releaseToWorker then
    match r.worker with
    | some w =>
        let fee := computeFee r.amount p.feeBps
        .ok ({ r with state := .completed, completedAt := some now },
             [(w, r.amount - fee), (p.owner, fee)])
    | none => .error .invalidState
  else
    .ok ({ r with state := .refunded, completedAt := some now },
         [(r.employer, r.amount)])

/-- Modelled from the spec: the tagged mutating operations on one existing
escrow record (spec section 6). -/
inductive EOp where
  | fund (sender paid : Nat)
  | lock (sender now : Nat)
  | confirm (sender now : Nat)
  | raiseDispute (sender now : Nat)
  | resolve (sender : Nat) (releaseToWorker : Bool) (now : Nat)
deriving DecidableEq, Repr

/-- Modelled from the spec: dispatch of one operation against one record,
returning the updated record and the transfers it issues, or the error kind. -/
def applyOp (p : Platform) : EOp → EscrowRecord →
    Except EscrowErr (EscrowRecord × List (Nat × Nat))
  | .fund sender paid, r => (fund sender paid r).map fun r2 => (r2, [])
  | .lock sender now, r => (lock sender now r).map fun r2 => (r2, [])
  | .confirm sender now, r => confirm p sender now r
  | .raiseDispute sender now, r => (raiseDispute sender now r).map fun r2 => (r2, [])
  | .resolve sender rtw now, r => resolve p sender rtw now r

/-- The observable outcome of submitting one operation to the host. -/
structure OpResult where
  record : EscrowRecord
  transfers : List (Nat × Nat)
  err : Option EscrowErr
deriving DecidableEq, Repr

/-- Modelled from the spec: the host's all-or-nothing execution of one
operation (spec sections 5 and 7) — a failing operation commits nothing, so
the stored record stays as it was and no transfer is issued. -/
def runOp (p : Platform) (op : EOp) (r : EscrowRecord) : OpResult :=
  match applyOp p op r with
  | .ok (r2, ts) => { record := r2, transfers := ts, err := none }
  | .error e => { record := r, transfers := [], err := some e }

/-- Modelled from the spec: sequential execution of several operations on
one record, accumulating issued transfers, failing on the first error. -/
def runSeq (p : Platform) : List EOp → EscrowRecord →
    Except EscrowErr (EscrowRecord × List (Nat × Nat))
  | [], r => .ok (r, [])
  | op :: ops, r => do
      let (r2, ts) ← applyOp p op r
      let (r3, ts2) ← runSeq p ops r2
      .ok (r3, ts ++ ts2)

/-- The result type of the getEscrow query wrapper in
src/wrappers/DeployEscrow.ts: exactly the seven fields the wrapper reads and
returns. -/
structure GetEscrowResult where
  jobId : Nat
  employer : Nat
  worker : Option Nat
  amount : Nat
  state : EState
  employerConfirmed : Bool
  workerConfirmed : Bool
deriving DecidableEq, Repr

/-- Embeds the getEscrow query of src/wrappers/DeployEscrow.ts as a
projection of the full record onto the seven returned fields. -/
def getEscrow (r : EscrowRecord) : GetEscrowResult :=
  { jobId := r.jobId, employer := r.employer, worker := r.worker,
    amount := r.amount, state := r.state,
    employerConfirmed := r.employerConfirmed,
    workerConfirmed := r.workerConfirmed }

/-- True exactly for the operation specified to change the worker field. -/
def opTouchesWorker : EOp → Bool
  | .lock _ _ => true
  | _ => false

/-- True exactly for the operation specified to change confirmation flags. -/
def opTouchesFlags : EOp → Bool
  | .confirm _ _ => true
  | _ => false

/-! ## Theorems -/

/-- The fee never exceeds the amount when the fee rate is at most 10000
basis points. -/
theorem computeFee_le (amount feeBps : Nat) (h : feeBps ≤ 10000) :
    computeFee amount feeBps ≤ amount := by
  unfold computeFee
  calc amount * feeBps / 10000 ≤ amount * 10000 / 10000 :=
        Nat.div_le_div_right (Nat.mul_le_mul_left _ h)
    _ = amount := by omega

/-- Claim C1: for every valid sequence create, fund, lock, confirm by the
employer, confirm by the worker, the record ends in Completed; the transfers
issued are amount minus fee to the worker and fee to the administrator, with
fee equal to the floor of amount times feeBps over 10000, and payout plus
fee equals the amount exactly. -/
theorem mutual_confirm_payout (ownerA feeBps id jobId emp w amount paid t0 t1 t2 t3 : Nat)
    (hw : w ≠ emp) (hpos : 0 < amount) (hpaid : amount ≤ paid) (hfee : feeBps ≤ 10000) :
    runSeq ⟨ownerA, feeBps⟩
        [.fund emp paid, .lock w t1, .confirm emp t2, .confirm w t3]
        (createEscrow id jobId emp (some w) amount t0)
      = .ok ({ id := id, jobId := jobId, employer := emp, worker := some w,
               amount := amount, state := .completed,
               employerConfirmed := true, workerConfirmed := true,
               createdAt := t0, lockedAt := some t1, completedAt := some t3,
               disputeRaisedAt := none },
             [(w, amount - computeFee amount feeBps), (ownerA, computeFee amount feeBps)])
      ∧ (amount - computeFee amount feeBps) + computeFee amount feeBps = amount := by
  constructor
  · simp [runSeq, applyOp, fund, lock, confirm, finishConfirm, createEscrow,
          Bind.bind, Except.bind, Except.map,
          hw, Nat.pos_iff_ne_zero.mp hpos, Nat.not_lt.mpr hpaid]
  · exact Nat.sub_add_cancel (computeFee_le amount feeBps hfee)

/-- Claim C1 witness: the concrete scenario of the spec — amount
100000000000 at 250 basis points pays 97500000000 to the worker and
2500000000 to the administrator, summing back to the amount. -/
theorem mutual_confirm_payout_witness :
    runSeq ⟨1, 250⟩ [.fund 2 100000000000, .lock 3 11, .confirm 2 12, .confirm 3 13]
        (createEscrow 0 5 2 (some 3) 100000000000 10)
      = .ok ({ id := 0, jobId := 5, employer := 2, worker := some 3,
               amount := 100000000000, state := .completed,
               employerConfirmed := true, workerConfirmed := true,
               createdAt := 10, lockedAt := some 11, completedAt := some 13,
               disputeRaisedAt := none },
             [(3, 97500000000), (1, 2500000000)])
      ∧ 97500000000 + 2500000000 = 100000000000 := by
  have h := mutual_confirm_payout 1 250 0 5 2 3 100000000000 100000000000 10 11 12 13
    (by norm_num) (by norm_num) (by norm_num) (by norm_num)
  exact ⟨h.1, by norm_num⟩

/-- Claim C2: the claim asserts that Refunded is a member of the record's
state type as declared by the EscrowState object of
src/wrappers/DeployEscrow.ts; in the code that object enumerates only
created, funded, locked, completed and disputed, so refunded is absent —
even though the repository's own SMART_CONTRACTS.md lists REFUNDED among
the escrow states and OP_RESOLVE_DISPUTE is documented to reach it. -/
theorem escrowState_missing_refunded :
    EscrowState.map Prod.fst = ["created", "funded", "locked", "completed", "disputed"]
      ∧ "refunded" ∉ EscrowState.map Prod.fst := by
  constructor
  · rfl
  · decide

/-- Claim C3: a failing operation has zero observable effect — the stored
record is exactly the pre-operation record and no transfer is issued. -/
theorem failed_op_no_effect (p : Platform) (op : EOp) (r : EscrowRecord)
    (e : EscrowErr) (h : (runOp p op r).err = some e) :
    (runOp p op r).record = r ∧ (runOp p op r).transfers = [] := by
  cases happ : applyOp p op r with
  | ok v => simp [runOp, happ] at h
  | error e2 => simp [runOp, happ]

/-- Claim C3 witness: a resolve sent by a non-administrator fails and
leaves the concrete record and balances untouched. -/
theorem failed_op_no_effect_witness :
    (runOp ⟨1, 250⟩ (.resolve 99 false 20) (createEscrow 0 5 2 (some 3) 1000 10)).record
        = createEscrow 0 5 2 (some 3) 1000 10
      ∧ (runOp ⟨1, 250⟩ (.resolve 99 false 20)
          (createEscrow 0 5 2 (some 3) 1000 10)).transfers = [] :=
  failed_op_no_effect ⟨1, 250⟩ (.resolve 99 false 20)
    (createEscrow 0 5 2 (some 3) 1000 10) .unauthorized rfl

/-- Claim C4: confirm is idempotent per sender — on a Locked record a
repeat confirm from a party whose flag is already set succeeds and changes
nothing and issues no transfer; and the moment the second flag is set, the
very same confirm operation completes the record and issues the payout and
fee transfers, with no separate release step. -/
theorem confirm_idempotent_release (p : Platform) (sender now : Nat) (r : EscrowRecord)
    (hst : r.state = .locked) :
    (sender = r.employer → r.employerConfirmed = true → r.workerConfirmed = false →
      applyOp p (.confirm sender now) r = .ok (r, [])) ∧
    (r.worker = some sender → sender ≠ r.employer → r.workerConfirmed = true →
      r.employerConfirmed = false →
      applyOp p (.confirm sender now) r = .ok (r, [])) ∧
    (r.worker = some sender → sender ≠ r.employer → r.employerConfirmed = true →
      applyOp p (.confirm sender now) r =
        .ok ({ r with workerConfirmed := true, state := .completed,
                      completedAt := some now },
             [(sender, r.amount - computeFee r.amount p.feeBps),
              (p.owner, computeFee r.amount p.feeBps)])) ∧
    (∀ w, r.worker = some w → sender = r.employer → r.workerConfirmed = true →
      applyOp p (.confirm sender now) r =
        .ok ({ r with employerConfirmed := true, state := .completed,
                      completedAt := some now },
             [(w, r.amount - computeFee r.amount p.feeBps),
              (p.owner, computeFee r.amount p.feeBps)])) := by
  obtain ⟨id, jobId, emp, wk, amt, st, ec, wc, ca, la, coa, da⟩ := r
  simp only at hst
  subst hst
  refine ⟨?_, ?_, ?_, ?_⟩
  · intro hs hec hwc
    subst hs hec hwc
    simp [applyOp, confirm, finishConfirm]
  · intro hwk hne hwc hec
    subst hwc hec
    simp_all [applyOp, confirm, finishConfirm]
  · intro hwk hne hec
    subst hec
    simp_all [applyOp, confirm, finishConfirm]
  · intro w hwk hs hwc
    subst hs hwc
    simp_all [applyOp, confirm, finishConfirm]

/-- Claim C4 witness: on a concrete Locked record where the employer has
already confirmed, a repeat employer confirm returns the record unchanged
with no transfer. -/
theorem confirm_idempotent_release_witness :
    applyOp ⟨1, 250⟩ (.confirm 2 20)
        { id := 0, jobId := 5, employer := 2, worker := some 3, amount := 1000,
          state := .locked, employerConfirmed := true, workerConfirmed := false,
          createdAt := 10, lockedAt := some 11, completedAt := none,
          disputeRaisedAt := none }
      = .ok ({ id := 0, jobId := 5, employer := 2, worker := some 3, amount := 1000,
               state := .locked, employerConfirmed := true, workerConfirmed := false,
               createdAt := 10, lockedAt := some 11, completedAt := none,
               disputeRaisedAt := none }, []) :=
  (confirm_idempotent_release ⟨1, 250⟩ 2 20 _ rfl).1 rfl rfl rfl

/-- Claim C5: a resolve whose sender is not the administrator fails with
Unauthorized in every state of every record, and the all-or-nothing run
leaves the record unchanged with no transfer. -/
theorem resolve_requires_admin (p : Platform) (sender : Nat) (rtw : Bool) (now : Nat)
    (r : EscrowRecord) (h : sender ≠ p.owner) :
    applyOp p (.resolve sender rtw now) r = .error .unauthorized ∧
    runOp p (.resolve sender rtw now) r =
      { record := r, transfers := [], err := some .unauthorized } := by
  have h1 : resolve p sender rtw now r = .error .unauthorized := by
    unfold resolve; rw [if_pos h]
  exact ⟨h1, by simp [runOp, applyOp, h1]⟩

/-- Claim C5 witness: sender 99 is not the administrator 1, so resolve on a
concrete Disputed record fails with Unauthorized and changes nothing. -/
theorem resolve_requires_admin_witness :
    applyOp ⟨1, 250⟩ (.resolve 99 true 20)
        { id := 0, jobId := 5, employer := 2, worker := some 3, amount := 1000,
          state := .disputed, employerConfirmed := false, workerConfirmed := false,
          createdAt := 10, lockedAt := some 11, completedAt := none,
          disputeRaisedAt := some 12 }
      = .error .unauthorized ∧
    runOp ⟨1, 250⟩ (.resolve 99 true 20)
        { id := 0, jobId := 5, employer := 2, worker := some 3, amount := 1000,
          state := .disputed, employerConfirmed := false, workerConfirmed := false,
          createdAt := 10, lockedAt := some 11, completedAt := none,
          disputeRaisedAt := some 12 }
      = { record := { id := 0, jobId := 5, employer := 2, worker := some 3,
                      amount := 1000, state := .disputed,
                      employerConfirmed := false, workerConfirmed := false,
                      createdAt := 10, lockedAt := some 11, completedAt := none,
                      disputeRaisedAt := some 12 },
          transfers := [], err := some .unauthorized } :=
  resolve_requires_admin ⟨1, 250⟩ 99 true 20 _ (by norm_num)

/-- Claim C6: the first lock on a Funded record succeeds and records the
worker; a second lock on the now Locked record, from a party different from
the recorded worker, fails with InvalidState, and the worker field still
holds the original worker afterwards. -/
theorem double_lock_rejected (p : Platform) (w1 w2 t1 t2 : Nat) (r : EscrowRecord)
    (hst : r.state = .funded) (hwk : r.worker = none) (hne : w1 ≠ r.employer)
    (hdiff : w2 ≠ w1) :
    ∃ r1, applyOp p (.lock w1 t1) r = .ok (r1, []) ∧
      r1.worker = some w1 ∧ r1.state = .locked ∧
      applyOp p (.lock w2 t2) r1 = .error .invalidState ∧
      (runOp p (.lock w2 t2) r1).record.worker = some w1 := by
  refine ⟨{ r with state := .locked, worker := some w1, lockedAt := some t1 },
    ?_, rfl, rfl, ?_, ?_⟩
  · simp [applyOp, lock, hst, hwk, hne, Except.map]
  · simp [applyOp, lock, Except.map]
  · simp [runOp, applyOp, lock, Except.map]

/-- Claim C6 witness: worker 3 locks a concrete Funded record; the rival
lock from worker 4 fails with InvalidState and worker 3 stays recorded. -/
theorem double_lock_rejected_witness :
    ∃ r1, applyOp ⟨1, 250⟩ (.lock 3 11)
        { id := 0, jobId := 5, employer := 2, worker := none, amount := 1000,
          state := .funded, employerConfirmed := false, workerConfirmed := false,
          createdAt := 10, lockedAt := none, completedAt := none,
          disputeRaisedAt := none }
      = .ok (r1, []) ∧
      r1.worker = some 3 ∧ r1.state = .locked ∧
      applyOp ⟨1, 250⟩ (.lock 4 12) r1 = .error .invalidState ∧
      (runOp ⟨1, 250⟩ (.lock 4 12) r1).record.worker = some 3 :=
  double_lock_rejected ⟨1, 250⟩ 3 4 11 12 _ rfl rfl (by norm_num) (by norm_num)

/-- Claim C7 counterexample: the claim says constructing the contract state
with feeBasisPoints greater than 10000 fails, but escrowConfigToCell at
feeBps 10001 succeeds and stores the out-of-range value 10001 verbatim. -/
theorem escrowConfigToCell_accepts_over_10000 :
    escrowConfigToCell ⟨7, 10001⟩
      = .ok [.uintV 0 64, .dictV false, .addrV 7, .uintV 10001 16] := rfl

/-- Claim C7 (amended): escrowConfigToCell performs no 10000 upper-bound
check on the fee — every feeBps from 0 to 65535 is stored unchanged in the
16-bit field, including values above 10000, and only a feeBps outside the
representable range 0 to 65535 makes the construction fail. -/
theorem escrowConfigToCell_range (config : EscrowConfig) :
    escrowConfigToCell config =
      if 0 ≤ config.feeBps ∧ config.feeBps < 65536 then
        .ok [.uintV 0 64, .dictV false, .addrV config.owner, .uintV config.feeBps 16]
      else .error "number does not fit in bits" := by
  simp only [escrowConfigToCell, storeUintI]
  norm_num
  split <;> rfl

/-- Claim C8 counterexample: the claim says the record returned by
getRecord contains the timestamps and the id, but the getEscrow wrapper
returns only seven fields — neither createdAt, lockedAt, completedAt,
disputeRaisedAt nor id is among them. -/
theorem getEscrow_missing_timestamps :
    "createdAt" ∉ getEscrowFieldNames ∧ "lockedAt" ∉ getEscrowFieldNames ∧
    "completedAt" ∉ getEscrowFieldNames ∧ "disputeRaisedAt" ∉ getEscrowFieldNames ∧
    "id" ∉ getEscrowFieldNames := by decide

/-- Claim C8 (amended): after every successful mutating operation, the
getEscrow projection agrees with the pre-operation projection on every
returned field except the ones the operation is specified to change: jobId,
employer and amount never change, worker changes only under lock, the
confirmation flags change only under confirm, and every non-confirm
operation changes the state; id and createdAt are unchanged on the full
record (they are simply not part of the projection). -/
theorem getEscrow_frame (p : Platform) (op : EOp) (r r2 : EscrowRecord)
    (ts : List (Nat × Nat)) (h : applyOp p op r = .ok (r2, ts)) :
    (getEscrow r2).jobId = (getEscrow r).jobId ∧
    (getEscrow r2).employer = (getEscrow r).employer ∧
    (getEscrow r2).amount = (getEscrow r).amount ∧
    r2.id = r.id ∧ r2.createdAt = r.createdAt ∧
    (opTouchesWorker op = false → (getEscrow r2).worker = (getEscrow r).worker) ∧
    (opTouchesFlags op = false →
      (getEscrow r2).employerConfirmed = (getEscrow r).employerConfirmed ∧
      (getEscrow r2).workerConfirmed = (getEscrow r).workerConfirmed) ∧
    (opTouchesFlags op = false → (getEscrow r2).state ≠ (getEscrow r).state) := by
  cases op with
  | fund sender paid =>
      simp only [applyOp, fund, Except.map] at h
      split_ifs at h with h1 h2 h3 h4 <;> simp_all [getEscrow, opTouchesWorker, opTouchesFlags]
      obtain ⟨hr, hts⟩ := h
      subst hr
      simp_all [getEscrow]
  | lock sender now =>
      cases hwk : r.worker with
      | none =>
          simp only [applyOp, lock, Except.map, hwk] at h
          split_ifs at h with h1 h2 <;> simp_all [getEscrow, opTouchesWorker, opTouchesFlags]
          obtain ⟨hr, hts⟩ := h
          subst hr
          simp_all [getEscrow]
      | some w =>
          simp only [applyOp, lock, Except.map, hwk] at h
          split_ifs at h with h1 h2 h3 <;> simp_all [getEscrow, opTouchesWorker, opTouchesFlags]
          obtain ⟨hr, hts⟩ := h
          subst hr
          simp_all [getEscrow]
  | confirm sender now =>
      cases hwk : r.worker with
      | none =>
          simp only [applyOp, confirm, finishConfirm, hwk] at h
          split_ifs at h <;> simp_all [getEscrow, opTouchesWorker, opTouchesFlags] <;>
            (obtain ⟨hr, hts⟩ := h; subst hr; simp_all [getEscrow])
      | some w =>
          simp only [applyOp, confirm, finishConfirm, hwk] at h
          split_ifs at h <;> simp_all [getEscrow, opTouchesWorker, opTouchesFlags] <;>
            (obtain ⟨hr, hts⟩ := h; subst hr; simp_all [getEscrow])
  | raiseDispute sender now =>
      simp only [applyOp, raiseDispute, Except.map] at h
      split_ifs at h with h1 h2 <;> simp_all [getEscrow, opTouchesWorker, opTouchesFlags]
      obtain ⟨hr, hts⟩ := h
      subst hr
      simp_all [getEscrow]
  | resolve sender rtw now =>
      cases hwk : r.worker with
      | none =>
          simp only [applyOp, resolve, hwk] at h
          split_ifs at h <;> simp_all [getEscrow, opTouchesWorker, opTouchesFlags] <;>
            (obtain ⟨hr, hts⟩ := h; subst hr; simp_all [getEscrow])
      | some w =>
          simp only [applyOp, resolve, hwk] at h
          split_ifs at h <;> simp_all [getEscrow, opTouchesWorker, opTouchesFlags] <;>
            (obtain ⟨hr, hts⟩ := h; subst hr; simp_all [getEscrow])

/-- Claim C8 witness: a successful fund of a concrete Created record leaves
every projected field except the state unchanged, and flips the state. -/
theorem getEscrow_frame_witness :
    (getEscrow { id := 0, jobId := 5, employer := 2, worker := some 3, amount := 1000,
                 state := .funded, employerConfirmed := false, workerConfirmed := false,
                 createdAt := 10, lockedAt := none, completedAt := none,
                 disputeRaisedAt := none }).jobId
        = (getEscrow (createEscrow 0 5 2 (some 3) 1000 10)).jobId ∧
    (getEscrow { id := 0, jobId := 5, employer := 2, worker := some 3, amount := 1000,
                 state := .funded, employerConfirmed := false, workerConfirmed := false,
                 createdAt := 10, lockedAt := none, completedAt := none,
                 disputeRaisedAt := none }).employer
        = (getEscrow (createEscrow 0 5 2 (some 3) 1000 10)).employer ∧
    (getEscrow { id := 0, jobId := 5, employer := 2, worker := some 3, amount := 1000,
                 state := .funded, employerConfirmed := false, workerConfirmed := false,
                 createdAt := 10, lockedAt := none, completedAt := none,
                 disputeRaisedAt := none }).amount
        = (getEscrow (createEscrow 0 5 2 (some 3) 1000 10)).amount ∧
    ({ id := 0, jobId := 5, employer := 2, worker := some 3, amount := 1000,
       state := .funded, employerConfirmed := false, workerConfirmed := false,
       createdAt := 10, lockedAt := none, completedAt := none,
       disputeRaisedAt := none } : EscrowRecord).id
        = (createEscrow 0 5 2 (some 3) 1000 10).id ∧
    ({ id := 0, jobId := 5, employer := 2, worker := some 3, amount := 1000,
       state := .funded, employerConfirmed := false, workerConfirmed := false,
       createdAt := 10, lockedAt := none, completedAt := none,
       disputeRaisedAt := none } : EscrowRecord).createdAt
        = (createEscrow 0 5 2 (some 3) 1000 10).createdAt ∧
    (opTouchesWorker (.fund 2 1000) = false →
      (getEscrow { id := 0, jobId := 5, employer := 2, worker := some 3, amount := 1000,
                   state := .funded, employerConfirmed := false, workerConfirmed := false,
                   createdAt := 10, lockedAt := none, completedAt := none,
                   disputeRaisedAt := none }).worker
        = (getEscrow (createEscrow 0 5 2 (some 3) 1000 10)).worker) ∧
    (opTouchesFlags (.fund 2 1000) = false →
      (getEscrow { id := 0, jobId := 5, employer := 2, worker := some 3, amount := 1000,
                   state := .funded, employerConfirmed := false, workerConfirmed := false,
                   createdAt := 10, lockedAt := none, completedAt := none,
                   disputeRaisedAt := none }).employerConfirmed
        = (getEscrow (createEscrow 0 5 2 (some 3) 1000 10)).employerConfirmed ∧
      (getEscrow { id := 0, jobId := 5, employer := 2, worker := some 3, amount := 1000,
                   state := .funded, employerConfirmed := false, workerConfirmed := false,
                   createdAt := 10, lockedAt := none, completedAt := none,
                   disputeRaisedAt := none }).workerConfirmed
        = (getEscrow (createEscrow 0 5 2 (some 3) 1000 10)).workerConfirmed) ∧
    (opTouchesFlags (.fund 2 1000) = false →
      (getEscrow { id := 0, jobId := 5, employer := 2, worker := some 3, amount := 1000,
                   state := .funded, employerConfirmed := false, workerConfirmed := false,
                   createdAt := 10, lockedAt := none, completedAt := none,
                   disputeRaisedAt := none }).state
        ≠ (getEscrow (createEscrow 0 5 2 (some 3) 1000 10)).state) :=
  getEscrow_frame ⟨1, 250⟩ (.fund 2 1000) (createEscrow 0 5 2 (some 3) 1000 10) _ [] rfl

/-- Claim C9: sendSubmitRating throws for every rating outside 1 to 5
before building any message, and for an in-range rating sends exactly one
message whose body is the 32-bit opcode 0x9e6f2a84, a 64-bit zero query id,
the 64-bit job id, the target user address and the 8-bit rating. -/
theorem sendSubmitRating_spec (opts : SubmitRatingOpts) :
    (opts.rating < 1 ∨ 5 < opts.rating →
      sendSubmitRating opts = .error "Rating must be between 1 and 5") ∧
    (1 ≤ opts.rating → opts.rating ≤ 5 → 0 ≤ opts.jobId → opts.jobId < 2 ^ 64 →
      sendSubmitRating opts =
        .ok [{ value := opts.value,
               body := [.uintV 0x9e6f2a84 32, .uintV 0 64, .uintV opts.jobId 64,
                        .addrV opts.targetUser, .uintV opts.rating 8] }]) := by
  constructor
  · intro hbad
    unfold sendSubmitRating
    rw [if_pos]
    rcases hbad with hb | hb
    · exact Or.inl hb
    · exact Or.inr hb
  · intro h1 h5 hj0 hj
    have hcond : ¬ (opts.rating < 1 ∨ opts.rating > 5) := by omega
    have e8 : (2 : Int) ^ 8 = 256 := by norm_num
    have hr0 : (0 : Int) ≤ opts.rating := by omega
    have hr8 : opts.rating < (2 : Int) ^ 8 := by rw [e8]; omega
    have e64 : (2 : Int) ^ 64 = 18446744073709551616 := by norm_num
    simp only [sendSubmitRating, storeUintI]
    rw [if_neg hcond]
    norm_num [Bind.bind, Except.bind, hj0, hj, hr0, hr8]
    rw [e64] at hj
    rw [if_pos hj, if_pos (show opts.rating < 256 by omega)]

/-- Claim C9 witness: rating 6 is rejected with the thrown error and no
message, while rating 3 yields exactly the documented single message. -/
theorem sendSubmitRating_spec_witness :
    sendSubmitRating ⟨50, 7, 9, 6⟩ = .error "Rating must be between 1 and 5" ∧
    sendSubmitRating ⟨50, 7, 9, 3⟩ =
      .ok [{ value := 50,
             body := [.uintV 0x9e6f2a84 32, .uintV 0 64, .uintV 7 64,
                      .addrV 9, .uintV 3 8] }] :=
  ⟨(sendSubmitRating_spec ⟨50, 7, 9, 6⟩).1 (Or.inr (by norm_num)),
   (sendSubmitRating_spec ⟨50, 7, 9, 3⟩).2 (by norm_num) (by norm_num)
     (by norm_num) (by norm_num)⟩

/-- Claim C10: when counter is 0 or undefined and id is defined,
reputationConfigToCell stores id as the 64-bit counter value — the JS falsy
fallback makes an initial counter of 0 alongside a nonzero id
unrepresentable. -/
theorem reputationConfigToCell_counter_fallback (config : ReputationConfig) (n : Int)
    (hid : config.id = some n) (hc : config.counter = none ∨ config.counter = some 0)
    (hn0 : 0 ≤ n) (hn : n < 2 ^ 64) :
    reputationConfigToCell config = .ok [.uintV n 64] := by
  have hval : jsOrI config.counter (jsOrI (some n) 0) = n := by
    rcases hc with hc | hc
    · simp only [jsOrI, hc]
      by_cases hn2 : n = 0 <;> simp [hn2]
    · simp only [jsOrI, hc, if_pos rfl]
      by_cases hn2 : n = 0 <;> simp [hn2]
  simp only [reputationConfigToCell, hid, Option.isSome_some, true_or, if_true,
    storeUintI, hval]
  rw [if_pos (show (0 : Int) ≤ n ∧ n < (2 : Int) ^ 64 from ⟨hn0, hn⟩)]
  rfl

/-- Claim C10 witness: the config with counter 0 and id 7 produces a cell
whose stored 64-bit counter is 7, not 0. -/
theorem reputationConfigToCell_counter_fallback_witness :
    reputationConfigToCell ⟨none, some 7, some 0⟩ = .ok [.uintV 7 64] :=
  reputationConfigToCell_counter_fallback ⟨none, some 7, some 0⟩ 7 rfl
    (Or.inr rfl) (by norm_num) (by norm_num)

end WajoB
